import Mathlib

/-!
Shallow embedding of the filtering and aggregation pipeline of the Billboard
dashboard in src/main.py.  The dataset is a list of rows; the sidebar filter,
the pandas groupby aggregations and the declarative chart transforms become
pure list functions, with rational numbers standing for the computed
proportions.  The chart-spec validation delegated to the external charting
library is modelled from the specification, as noted on its definition.
-/

/-- One Billboard chart entry, one row of merged_data.csv with the columns
the dashboard reads. -/
structure Row where
  year : Int
  genre_full : String
  weeks_on_chart : Int
  mood_happy : String
  gender : String
  peak_position : Int
  bpm : Int
  loudness : Int
  song : String
  artist : String
  deriving DecidableEq

/-- Option list of the year multiselect, hardcoded in the sidebar
configuration rather than derived from the dataset. -/
def year_options : List Int := [1969, 2019]

/-- The sidebar filter: keep the rows whose year is among the selected
years, whose genre is among the selected genres, and whose weeks on chart
reach the slider minimum.  Boolean mask conjunction over the dataset. -/
def filtered_data (merged_data : List Row) (selected_years : List Int)
    (selected_genres : List String) (min_weeks : Int) : List Row :=
  merged_data.filter (fun r =>
    decide (r.year ∈ selected_years) && decide (r.genre_full ∈ selected_genres)
      && decide (min_weeks ≤ r.weeks_on_chart))

/-- The groupby-apply aggregation shared by year_stats and genre_stats:
for each distinct key value present in the table, the share of the rows of
its group whose indicator column equals the match value.  Group keys are
listed in order of first appearance; pandas sorts them, which no property
below depends on. -/
def meanIndicatorByGroup {K : Type} [DecidableEq K] (table : List Row)
    (key : Row → K) (indicator : Row → String) (matchValue : String) :
    List (K × ℚ) :=
  ((table.map key).dedup).map (fun k =>
    (k, (((table.filter (fun r => decide (key r = k))).filter
            (fun r => decide (indicator r = matchValue))).length : ℚ)
      / ((table.filter (fun r => decide (key r = k))).length : ℚ)))

/-- Share of happy songs per year, the Year Comparison view of the mood
tab. -/
def year_stats (t : List Row) : List (Int × ℚ) :=
  meanIndicatorByGroup t Row.year Row.mood_happy "happy"

/-- Share of happy songs per genre and year, the Genre Breakdown view of
the mood tab. -/
def genre_stats (t : List Row) : List ((String × Int) × ℚ) :=
  meanIndicatorByGroup t (fun r => (r.genre_full, r.year)) Row.mood_happy "happy"

/-- The distinct (outer, inner) pairs present in the table, the grouping
keys of the aggregate transform. -/
def pairKeys (table : List Row) (outer : Row → Int) (inner : Row → String) :
    List (Int × String) :=
  (table.map (fun r => (outer r, inner r))).dedup

/-- Row count of one (outer, inner) group, the count measure of the
aggregate transform. -/
def pairCount (table : List Row) (outer : Row → Int) (inner : Row → String)
    (j : Int × String) : ℕ :=
  (table.filter (fun r => decide ((outer r, inner r) = j))).length

/-- The aggregate, joinaggregate and calculate transform chain used by the
genre and gender proportion charts: count the rows of each distinct
(outer, inner) pair, total the counts that share the outer value, and emit
count divided by total for each pair. -/
def proportionByGroup (table : List Row) (outer : Row → Int)
    (inner : Row → String) : List (Int × String × ℚ) :=
  (pairKeys table outer inner).map (fun k =>
    (k.1, k.2,
      (pairCount table outer inner k : ℚ)
        / ((((pairKeys table outer inner).filter
            (fun j => decide (j.1 = k.1))).map
              (pairCount table outer inner)).sum : ℚ)))

/-- Genre proportions by year, the overview tab chart. -/
def genre_chart (t : List Row) : List (Int × String × ℚ) :=
  proportionByGroup t Row.year Row.genre_full

/-- Gender proportions by year, the gender tab chart. -/
def gender_prop (t : List Row) : List (Int × String × ℚ) :=
  proportionByGroup t Row.year Row.gender

/-- Sum of the emitted proportions over the inner groups of one outer key:
the quantity the partition property speaks about. -/
def outerGroupSum (t : List Row) (outer : Row → Int) (inner : Row → String)
    (y : Int) : ℚ :=
  (((proportionByGroup t outer inner).filter (fun e => decide (e.1 = y))).map
    (fun e => e.2.2)).sum

/-- The Total Songs Analyzed metric, the row count of the filtered table. -/
def total_songs (t : List Row) : Nat := t.length

/-- The mean of the weeks_on_chart column; pandas yields NaN on an empty
column, modelled as none. -/
def avg_weeks (t : List Row) : Option ℚ :=
  if t.isEmpty then none
  else some (((t.map Row.weeks_on_chart).sum : ℚ) / (t.length : ℚ))

/-- One-decimal rendering of a rational, for the metric label text. -/
def fmt1 (q : ℚ) : String :=
  toString (round (q * 10) / 10) ++ "." ++ toString (round (q * 10) % 10)

/-- The rendered Average Weeks on Chart metric text; Python formats the NaN
mean of an empty column as the text nan. -/
def avg_weeks_display (t : List Row) : String :=
  match avg_weeks t with
  | none => "nan weeks"
  | some q => fmt1 q ++ " weeks"

/-- Marks recognized by the chart-spec builder. -/
inductive Mark
  | bar
  | circle
  | boxplot
  deriving DecidableEq

/-- Encoding options of a chart request: field names for the axes, the
color and the optional facet, the mark, the tooltip columns and the
interactivity flag. -/
structure EncodingConfig where
  xField : String
  yField : String
  colorField : String
  facetField : Option String
  mark : Mark
  tooltipFields : List String
  interactive : Bool
  deriving DecidableEq

/-- A declarative chart description: the summary-table schema together with
a validated encoding.  No rendering happens here. -/
structure ChartSpec where
  fields : List String
  encoding : EncodingConfig
  deriving DecidableEq

/-- Failure taxonomy of the chart-spec builder. -/
inductive ChartError
  | UnknownField
  deriving DecidableEq

/-- Every field name an encoding references. -/
def encodingFields (e : EncodingConfig) : List String :=
  [e.xField, e.yField, e.colorField] ++ e.facetField.toList ++ e.tooltipFields

/-- Modelled from the spec: the field-name validation of the chart-spec
builder is performed inside the external charting library, whose code is not
part of this repository.  Per the spec the builder checks every named field
against the summary-table schema at spec-build time and fails with
UnknownField when one is absent, returning no partial spec. -/
def buildSpec (schema : List String) (enc : EncodingConfig) :
    Except ChartError ChartSpec :=
  if (encodingFields enc).all (fun f => decide (f ∈ schema)) then
    Except.ok ⟨schema, enc⟩
  else
    Except.error ChartError.UnknownField

/-- One full render pass: filter, then every aggregation the tabs draw from
the filtered table. -/
def pipeline (d : List Row) (ys : List Int) (gs : List String) (mw : Int) :
    List Row × List (Int × ℚ) × List ((String × Int) × ℚ)
      × List (Int × String × ℚ) × List (Int × String × ℚ) :=
  (filtered_data d ys gs mw, year_stats (filtered_data d ys gs mw),
    genre_stats (filtered_data d ys gs mw), genre_chart (filtered_data d ys gs mw),
    gender_prop (filtered_data d ys gs mw))

/-- Sample rows taken from the worked example of the specification. -/
def row1 : Row := ⟨1969, "Rock", 10, "happy", "male", 1, 120, -5, "SongA", "ArtistA"⟩

/-- Second sample row of the worked example. -/
def row2 : Row := ⟨1969, "Pop", 5, "sad", "female", 2, 100, -7, "SongB", "ArtistB"⟩

/-- Third sample row of the worked example. -/
def row3 : Row := ⟨2019, "Rock", 20, "happy", "male", 3, 90, -4, "SongC", "ArtistC"⟩

/-- Fourth sample row of the worked example. -/
def row4 : Row := ⟨2019, "Pop", 15, "sad", "female", 4, 110, -6, "SongD", "ArtistD"⟩

/-- The four-row sample dataset of the worked example. -/
def sample : List Row := [row1, row2, row3, row4]

/-- A row whose mood text differs from happy only by case. -/
def row5 : Row := ⟨1969, "Rock", 3, "Happy", "male", 5, 95, -8, "SongE", "ArtistE"⟩

/-- A row with an empty mood text. -/
def row6 : Row := ⟨1969, "Pop", 4, "", "female", 6, 105, -9, "SongF", "ArtistF"⟩

/-- A sample whose 1969 group holds no exact happy match. -/
def sample2 : List Row := [row5, row6]

/-- Membership in the filtered table, the shared characterisation used by
several properties below. -/
theorem mem_filtered_data (d : List Row) (ys : List Int) (gs : List String)
    (mw : Int) (r : Row) :
    r ∈ filtered_data d ys gs mw ↔
      r ∈ d ∧ r.year ∈ ys ∧ r.genre_full ∈ gs ∧ mw ≤ r.weeks_on_chart := by
  simp [filtered_data, List.mem_filter, and_assoc]

/-- Claim C1: the filter returns exactly the dataset rows whose year is
selected, whose genre is selected and whose weeks on chart reach the
minimum, and an empty year or genre selection yields an empty result rather
than an error. -/
theorem filtered_data_exact (d : List Row) (ys : List Int) (gs : List String)
    (mw : Int) (r : Row) :
    (r ∈ filtered_data d ys gs mw ↔
      r ∈ d ∧ r.year ∈ ys ∧ r.genre_full ∈ gs ∧ mw ≤ r.weeks_on_chart)
    ∧ filtered_data d [] gs mw = [] ∧ filtered_data d ys [] mw = [] := by
  refine ⟨mem_filtered_data d ys gs mw r, ?_, ?_⟩
  · simp [filtered_data]
  · simp [filtered_data]

/-- Claim C1 witness at the worked example of the specification. -/
theorem filtered_data_exact_witness :
    (row1 ∈ filtered_data sample [1969, 2019] ["Rock"] 8 ↔
      row1 ∈ sample ∧ row1.year ∈ [(1969 : Int), 2019]
        ∧ row1.genre_full ∈ ["Rock"] ∧ 8 ≤ row1.weeks_on_chart)
    ∧ filtered_data sample [] ["Rock"] 8 = []
    ∧ filtered_data sample [1969, 2019] [] 8 = [] :=
  filtered_data_exact sample [1969, 2019] ["Rock"] 8 row1

/-- Claim C2: widening the year or genre selection and lowering the minimum
weeks never loses a row of the filtered table. -/
theorem filtered_data_monotone (d : List Row) (ys ys2 : List Int)
    (gs gs2 : List String) (mw mw2 : Int)
    (hy : ys ⊆ ys2) (hg : gs ⊆ gs2) (hm : mw2 ≤ mw) (r : Row)
    (hr : r ∈ filtered_data d ys gs mw) :
    r ∈ filtered_data d ys2 gs2 mw2 := by
  obtain ⟨hd, hyr, hgr, hwr⟩ := (mem_filtered_data d ys gs mw r).mp hr
  exact (mem_filtered_data d ys2 gs2 mw2 r).mpr
    ⟨hd, hy hyr, hg hgr, le_trans hm hwr⟩

/-- Claim C2 witness: a row kept by a narrow selection stays in the table
of a wider one. -/
theorem filtered_data_monotone_witness :
    row1 ∈ filtered_data sample [1969, 2019] ["Rock", "Pop"] 0 :=
  filtered_data_monotone sample [1969] [1969, 2019] ["Rock"] ["Rock", "Pop"]
    8 0 (by simp) (by simp) (by decide) row1 (by decide)

/-- Claim C3: the filtered table is a subsequence of the dataset, so it
holds only dataset rows, each no more often than the dataset does, in the
original order; the dataset itself is left untouched by the pure filter. -/
theorem filtered_data_sublist (d : List Row) (ys : List Int)
    (gs : List String) (mw : Int) :
    (filtered_data d ys gs mw).Sublist d
    ∧ ∀ r : Row, (filtered_data d ys gs mw).count r ≤ d.count r :=
  ⟨List.filter_sublist d, fun r => (List.filter_sublist d).count_le r⟩

/-- Claim C9: the year multiselect options are the fixed two-element list
1969 and 2019, so under any selection drawn from them every filtered row
carries one of those two years. -/
theorem year_options_fixed (d : List Row) (ys : List Int) (gs : List String)
    (mw : Int) (hy : ys ⊆ year_options) (r : Row)
    (hr : r ∈ filtered_data d ys gs mw) :
    year_options = [1969, 2019] ∧ (r.year = 1969 ∨ r.year = 2019) := by
  refine ⟨rfl, ?_⟩
  have h := ((mem_filtered_data d ys gs mw r).mp hr).2.1
  have h2 := hy h
  simpa [year_options] using h2

/-- Claim C9 witness at the sample dataset with the full year domain
selected. -/
theorem year_options_fixed_witness :
    year_options = [1969, 2019] ∧ (row1.year = 1969 ∨ row1.year = 2019) :=
  year_options_fixed sample [1969, 2019] ["Rock", "Pop"] 0
    (by simp [year_options]) row1 (by decide)

/-- Claim C4: the mean-indicator aggregation emits one entry per distinct
key present in the table and nothing else, the entry of a key holds the
matching-row count divided by the group row count, and that value lies
between zero and one; absent keys, whose groups would be empty, are never
emitted. -/
theorem meanIndicatorByGroup_spec {K : Type} [DecidableEq K] (t : List Row)
    (key : Row → K) (ind : Row → String) (mv : String) (k : K)
    (hk : k ∈ t.map key) :
    (meanIndicatorByGroup t key ind mv).map Prod.fst = (t.map key).dedup
    ∧ (k, (((t.filter (fun r => decide (key r = k))).filter
          (fun r => decide (ind r = mv))).length : ℚ)
        / ((t.filter (fun r => decide (key r = k))).length : ℚ))
        ∈ meanIndicatorByGroup t key ind mv
    ∧ 0 ≤ (((t.filter (fun r => decide (key r = k))).filter
          (fun r => decide (ind r = mv))).length : ℚ)
        / ((t.filter (fun r => decide (key r = k))).length : ℚ)
    ∧ (((t.filter (fun r => decide (key r = k))).filter
          (fun r => decide (ind r = mv))).length : ℚ)
        / ((t.filter (fun r => decide (key r = k))).length : ℚ) ≤ 1 := by
  refine ⟨?_, ?_, ?_, ?_⟩
  · unfold meanIndicatorByGroup
    rw [List.map_map]
    exact List.map_id _
  · exact List.mem_map.mpr ⟨k, List.mem_dedup.mpr hk, rfl⟩
  · exact div_nonneg (Nat.cast_nonneg _) (Nat.cast_nonneg _)
  · obtain ⟨r, hrt, hrk⟩ := List.mem_map.mp hk
    have hrg : r ∈ t.filter (fun x => decide (key x = k)) :=
      List.mem_filter.mpr ⟨hrt, by simp [hrk]⟩
    have hden : (0 : ℕ) < (t.filter (fun x => decide (key x = k))).length :=
      List.length_pos.mpr (List.ne_nil_of_mem hrg)
    rw [div_le_one (by exact_mod_cast hden)]
    exact_mod_cast List.length_filter_le _ _

/-- Claim C4 witness at the worked example grouped by year. -/
theorem meanIndicatorByGroup_spec_witness :
    (meanIndicatorByGroup sample Row.year Row.mood_happy "happy").map Prod.fst
      = (sample.map Row.year).dedup
    ∧ ((1969 : Int), (((sample.filter (fun r => decide (r.year = 1969))).filter
          (fun r => decide (r.mood_happy = "happy"))).length : ℚ)
        / ((sample.filter (fun r => decide (r.year = 1969))).length : ℚ))
        ∈ meanIndicatorByGroup sample Row.year Row.mood_happy "happy"
    ∧ 0 ≤ (((sample.filter (fun r => decide (r.year = 1969))).filter
          (fun r => decide (r.mood_happy = "happy"))).length : ℚ)
        / ((sample.filter (fun r => decide (r.year = 1969))).length : ℚ)
    ∧ (((sample.filter (fun r => decide (r.year = 1969))).filter
          (fun r => decide (r.mood_happy = "happy"))).length : ℚ)
        / ((sample.filter (fun r => decide (r.year = 1969))).length : ℚ) ≤ 1 :=
  meanIndicatorByGroup_spec sample Row.year Row.mood_happy "happy" 1969
    (by decide)

/-- Claim C10: a row counts as happy only under exact string equality with
the text happy, and a year group none of whose rows match exactly is still
emitted, with proportion zero rather than being dropped. -/
theorem year_stats_all_unhappy_zero (t : List Row) (k : Int)
    (hk : k ∈ t.map Row.year)
    (hall : ∀ r ∈ t, r.year = k → r.mood_happy ≠ "happy") :
    (k, (0 : ℚ)) ∈ year_stats t := by
  have hnum : ((t.filter (fun r => decide (r.year = k))).filter
      (fun r => decide (r.mood_happy = "happy"))) = [] := by
    rw [List.filter_eq_nil_iff]
    intro r hr
    obtain ⟨hrt, hrk⟩ := List.mem_filter.mp hr
    simp only [decide_eq_true_eq] at hrk
    simp only [decide_eq_true_eq]
    exact hall r hrt hrk
  unfold year_stats meanIndicatorByGroup
  refine List.mem_map.mpr ⟨k, List.mem_dedup.mpr hk, ?_⟩
  rw [hnum]
  simp

/-- Claim C10 witness: a 1969 group whose moods are the text Happy with a
capital and the empty text is emitted with proportion zero. -/
theorem year_stats_all_unhappy_zero_witness :
    ((1969 : Int), (0 : ℚ)) ∈ year_stats sample2 :=
  year_stats_all_unhappy_zero sample2 1969 (by decide) (by decide)

/-- Dividing each summand of a list of counts by a common denominator and
summing equals summing first and dividing once. -/
theorem sum_map_div {α : Type} (K : List α) (c : α → ℕ) (T : ℚ) :
    (K.map (fun k => (c k : ℚ) / T)).sum = ((K.map c).sum : ℚ) / T := by
  have h1 : (K.map (fun k => (c k : ℚ) / T)).sum
      = (K.map (fun k => (c k : ℚ))).sum / T := by
    simp only [div_eq_mul_inv]
    exact List.sum_map_mul_right K _ T⁻¹
  rw [h1]
  congr 1
  rw [Nat.cast_list_sum, List.map_map]
  rfl

/-- Claim C5: within each outer-key value present in the table, the
proportions the transform chain emits over its inner groups sum to exactly
one, hence in particular to one within the stated tolerance. -/
theorem proportionByGroup_outer_sum (t : List Row) (outer : Row → Int)
    (inner : Row → String) (y : Int) (hy : y ∈ t.map outer) :
    outerGroupSum t outer inner y = 1
    ∧ |outerGroupSum t outer inner y - 1| ≤ 1 / 1000000000 := by
  have main : outerGroupSum t outer inner y = 1 := by
    have hfm : (proportionByGroup t outer inner).filter
          (fun e => decide (e.1 = y))
        = ((pairKeys t outer inner).filter (fun j => decide (j.1 = y))).map
            (fun k => (k.1, k.2,
              (pairCount t outer inner k : ℚ)
                / ((((pairKeys t outer inner).filter
                    (fun j => decide (j.1 = k.1))).map
                      (pairCount t outer inner)).sum : ℚ))) := by
      unfold proportionByGroup
      exact List.filter_map _ _
    have hcongr : (((pairKeys t outer inner).filter
          (fun j => decide (j.1 = y))).map
          ((fun e => e.2.2) ∘ (fun k => ((k.1, k.2,
            (pairCount t outer inner k : ℚ)
              / ((((pairKeys t outer inner).filter
                  (fun j => decide (j.1 = k.1))).map
                    (pairCount t outer inner)).sum : ℚ)) : Int × String × ℚ))))
        = (((pairKeys t outer inner).filter
            (fun j => decide (j.1 = y))).map
            (fun k => (pairCount t outer inner k : ℚ)
              / ((((pairKeys t outer inner).filter
                  (fun j => decide (j.1 = y))).map
                    (pairCount t outer inner)).sum : ℚ))) := by
      apply List.map_congr_left
      intro k hkmem
      have hk1 : k.1 = y := by
        have h2 := (List.mem_filter.mp hkmem).2
        simpa using h2
      show (pairCount t outer inner k : ℚ)
          / ((((pairKeys t outer inner).filter
              (fun j => decide (j.1 = k.1))).map
                (pairCount t outer inner)).sum : ℚ) = _
      rw [hk1]
    have hpos : 0 < (((pairKeys t outer inner).filter
        (fun j => decide (j.1 = y))).map (pairCount t outer inner)).sum := by
      obtain ⟨r, hrt, hry⟩ := List.mem_map.mp hy
      have hkmem : (outer r, inner r) ∈ pairKeys t outer inner :=
        List.mem_dedup.mpr (List.mem_map.mpr ⟨r, hrt, rfl⟩)
      have hkK : (outer r, inner r) ∈ (pairKeys t outer inner).filter
          (fun j => decide (j.1 = y)) :=
        List.mem_filter.mpr ⟨hkmem, by simp [hry]⟩
      have hc1 : 0 < pairCount t outer inner (outer r, inner r) := by
        have hmemf : r ∈ t.filter
            (fun x => decide ((outer x, inner x) = (outer r, inner r))) :=
          List.mem_filter.mpr ⟨hrt, by simp⟩
        exact List.length_pos.mpr (List.ne_nil_of_mem hmemf)
      exact lt_of_lt_of_le hc1
        (List.single_le_sum (fun x _ => Nat.zero_le x) _
          (List.mem_map.mpr ⟨_, hkK, rfl⟩))
    unfold outerGroupSum
    rw [hfm, List.map_map, hcongr, sum_map_div]
    exact div_self (by exact_mod_cast Nat.pos_iff_ne_zero.mp hpos)
  exact ⟨main, by rw [main]; norm_num⟩

/-- Claim C5 witness: the 1969 partition of the sample genre proportions
sums to one. -/
theorem proportionByGroup_outer_sum_witness :
    outerGroupSum sample Row.year Row.genre_full 1969 = 1
    ∧ |outerGroupSum sample Row.year Row.genre_full 1969 - 1|
        ≤ 1 / 1000000000 :=
  proportionByGroup_outer_sum sample Row.year Row.genre_full 1969 (by decide)

/-- Claim C6: a spec build whose encoding names a field absent from the
summary-table schema fails with the UnknownField error and returns no
partial spec, whatever the rest of the encoding configuration is. -/
theorem buildSpec_unknown_field (schema : List String) (enc : EncodingConfig)
    (f : String) (hf : f ∈ encodingFields enc) (habs : f ∉ schema) :
    buildSpec schema enc = Except.error ChartError.UnknownField := by
  unfold buildSpec
  rw [if_neg]
  intro hall
  rw [List.all_eq_true] at hall
  have h2 := hall f hf
  simp only [decide_eq_true_eq] at h2
  exact habs h2

/-- Claim C6 witness at the worked example of the specification: an
encoding naming a nonexistent column is rejected. -/
theorem buildSpec_unknown_field_witness :
    buildSpec ["year", "weeks_on_chart", "peak_position"]
      ⟨"nonexistent_column", "weeks_on_chart", "year", none, Mark.circle,
        ["year"], true⟩
      = Except.error ChartError.UnknownField :=
  buildSpec_unknown_field ["year", "weeks_on_chart", "peak_position"]
    ⟨"nonexistent_column", "weeks_on_chart", "year", none, Mark.circle,
      ["year"], true⟩
    "nonexistent_column" (by decide) (by decide)

/-- Claim C7 counterexample: with an empty filtered table the rendered
average-weeks metric is the formatted NaN text, not the text no data. -/
theorem avg_weeks_empty_counterexample :
    avg_weeks_display (filtered_data sample [] ["Rock", "Pop"] 0)
      = "nan weeks"
    ∧ avg_weeks_display (filtered_data sample [] ["Rock", "Pop"] 0)
      ≠ "no data" := by
  constructor
  · rfl
  · decide

/-- Claim C7 as amended: an empty filtered table is still a valid
displayable state, with a zero song count and no exception, but the
average-weeks metric shows the formatted NaN text nan weeks rather than a
no-data message. -/
theorem avg_weeks_empty_display (t : List Row) (h : t = []) :
    total_songs t = 0 ∧ avg_weeks t = none
    ∧ avg_weeks_display t = "nan weeks" := by
  subst h
  exact ⟨rfl, rfl, rfl⟩

/-- Claim C7 witness at the empty table. -/
theorem avg_weeks_empty_display_witness :
    total_songs [] = 0 ∧ avg_weeks [] = none
    ∧ avg_weeks_display [] = "nan weeks" :=
  avg_weeks_empty_display [] rfl

/-- Claim C8: the full pipeline is a pure function of the dataset and the
selection state, so two runs on identical inputs produce identical filtered
tables and identical summary tables. -/
theorem pipeline_deterministic (d1 d2 : List Row) (ys1 ys2 : List Int)
    (gs1 gs2 : List String) (mw1 mw2 : Int)
    (hd : d1 = d2) (hy : ys1 = ys2) (hg : gs1 = gs2) (hm : mw1 = mw2) :
    pipeline d1 ys1 gs1 mw1 = pipeline d2 ys2 gs2 mw2 := by
  subst hd hy hg hm
  rfl

/-- Claim C8 witness: two runs at the worked example agree. -/
theorem pipeline_deterministic_witness :
    pipeline sample [1969, 2019] ["Rock"] 8
      = pipeline sample [1969, 2019] ["Rock"] 8 :=
  pipeline_deterministic sample sample [1969, 2019] [1969, 2019]
    ["Rock"] ["Rock"] 8 8 rfl rfl rfl rfl
